import Mathlib

/-!
Shallow embedding of `src/mcp_twikit/twitter.py` (the mcp-twikit server).

The module-level environment reads, the session manager `get_twitter_client`,
the markdown formatter `convert_tweets_to_markdown`, and every active
`@mcp.tool()` function are translated into pure Lean functions.  Effects are
made explicit:

* the filesystem is a value of type `FS` (a map from path strings to optional
  file contents, plus a set of directories);
* the external twikit client calls (`client.login`, `client.search_tweet`,
  `client.get_user_by_screen_name`, ...) are oracle parameters of type
  `... → Except String α`: `.error e` models the call raising an exception
  whose string form is `e`, `.ok v` models it returning `v`;
* a Python `try/except Exception` block around code whose only fallible
  steps are such calls is translated by matching on the `Except` results;
* `f"..."` string interpolation is translated to `++` concatenation;
* `os.getenv` reads are a function `String → Option String` applied at
  module-load time only, exactly as in the source where `USERNAME`, `EMAIL`,
  `PASSWORD` and `USER_AGENT` are module-level constants.
-/

namespace McpTwikit

/-! ### String helpers (models of Python `str` primitives) -/

/-- Model of Python `p_str` being a prefix of `s` on explicit character
lists (the semantics of `str.startswith`). -/
def charsBeginWith : List Char → List Char → Bool
  | [], _ => true
  | _ :: _, [] => false
  | a :: as, b :: bs => a == b && charsBeginWith as bs

/-- `s` begins with the string `p` (model of Python `s.startswith(p)`). -/
def strBeginsWith (p s : String) : Bool := charsBeginWith p.data s.data

/-- There is a genuine character mismatch between `p` and `t` within the
length of `t` (so no extension of `t` can have `p` as a prefix). -/
def charsMismatch : List Char → List Char → Bool
  | [], _ => false
  | _ :: _, [] => false
  | a :: as, b :: bs => if a == b then charsMismatch as bs else true

/-- String-level version of `charsMismatch`. -/
def strMismatch (p t : String) : Bool := charsMismatch p.data t.data

/-- Model of Python `str.lstrip('@')` on character lists: drop every
leading `'@'`. -/
def lstripAtChars : List Char → List Char
  | [] => []
  | c :: rest => if c = '@' then lstripAtChars rest else c :: rest

/-- Model of Python `username.lstrip('@')`. -/
def lstripAt (s : String) : String := ⟨lstripAtChars s.data⟩

/-- Model of Python `sep.join(items)`. -/
def joinSep (sep : String) : List String → String
  | [] => ""
  | [x] => x
  | x :: y :: rest => x ++ sep ++ joinSep sep (y :: rest)

/-! ### Data model -/

/-- The author of a tweet, as used by `convert_tweets_to_markdown`
(`tweet.user.screen_name`). -/
structure TweetUser where
  screen_name : String
deriving DecidableEq

/-- The fields of a twikit `Tweet` that the source reads
(`tweet.id`, `tweet.user.screen_name`, `tweet.created_at`, `tweet.text`). -/
structure Tweet where
  id : String
  user : TweetUser
  created_at : String
  text : String
deriving DecidableEq

/-- The fields of a twikit `User` that the source reads. -/
structure User where
  id : String
  name : String
  screen_name : String
  description : String
  verified : Bool
  followers_count : Nat
  following_count : Nat
  location : String
  created_at : String
  profile_image_url : String
  profile_banner_url : String
deriving DecidableEq

/-- A direct message (`message.id`). -/
structure Message where
  id : String
deriving DecidableEq

/-- A trend entry (`trend.name`, `trend.tweets_count`). -/
structure Trend where
  name : String
  tweets_count : Nat
deriving DecidableEq

/-- The filesystem visible to the session manager: file contents by path and
a directory-existence predicate. -/
structure FS where
  files : String → Option String
  dirs : String → Bool

/-- `path.mkdir(parents=True, exist_ok=True)`: the directory (with its
parents, abstracted as the single tracked entry) exists afterwards. -/
def FS.mkdirParents (fs : FS) (d : String) : FS :=
  { fs with dirs := fun q => if q = d then true else fs.dirs q }

/-- Writing a file at `p` with content `c`. -/
def FS.writeFile (fs : FS) (p : String) (c : String) : FS :=
  { fs with files := fun q => if q = p then some c else fs.files q }

/-- The filesystem with no files and no directories. -/
def emptyFS : FS := { files := fun _ => none, dirs := fun _ => false }

/-- The module-level constants of `twitter.py`, bound by `os.getenv`
at module-load time (lines 13-16 of the source). -/
structure ModuleConsts where
  USERNAME : Option String
  EMAIL : Option String
  PASSWORD : Option String
  USER_AGENT : Option String
deriving DecidableEq

/-- Module import: `USERNAME = os.getenv('TWITTER_USERNAME')`,
`EMAIL = os.getenv('TWITTER_EMAIL')`, `PASSWORD = os.getenv('TWITTER_PASSWORD')`,
`USER_AGENT = os.getenv('USER_AGENT')`, applied to the process environment
`getenv` as it is at import time. -/
def moduleLoad (getenv : String → Option String) : ModuleConsts :=
  { USERNAME := getenv "TWITTER_USERNAME"
    EMAIL := getenv "TWITTER_EMAIL"
    PASSWORD := getenv "TWITTER_PASSWORD"
    USER_AGENT := getenv "USER_AGENT" }

/-- `Path.home() / '.mcp-twikit'` — the parent directory of the cookie file. -/
def COOKIES_DIR (home : String) : String := home ++ "/.mcp-twikit"

/-- `COOKIES_PATH = Path.home() / '.mcp-twikit' / 'cookies.json'`. -/
def COOKIES_PATH (home : String) : String := COOKIES_DIR home ++ "/cookies.json"

/-- The in-memory twikit client: constructor arguments plus its cookie /
login state. -/
structure Client where
  language : String
  user_agent : Option String
  cookies : Option String
  loggedIn : Bool
deriving DecidableEq

/-- The behaviour of the external login call and of a successful login's
resulting session state: `loginResult` is what `await client.login(...)`
does (raise `e` or succeed), and `sessionBlob` is the opaque cookie blob
that `client.save_cookies` would then persist. -/
structure ClientEnv where
  loginResult : Except String Unit
  sessionBlob : String

/-- Observable actions taken by one run of `get_twitter_client`. -/
structure SessionTrace where
  loginAttempted : Bool
  loginArgs : Option (Option String × Option String × Option String)
  mkdirCalled : Bool
  saveCookiesCalled : Bool
deriving DecidableEq

/-- The trace of the cookie-load path: nothing but `load_cookies` happens. -/
def noEffects : SessionTrace :=
  { loginAttempted := false, loginArgs := none
    mkdirCalled := false, saveCookiesCalled := false }

/-- Result of a successful `get_twitter_client`: the returned client, the
filesystem afterwards, and the trace of actions. -/
structure GTCResult where
  client : Client
  fs : FS
  trace : SessionTrace

/-- Shallow embedding of `get_twitter_client` (lines 19-38 of the source):
construct `twikit.Client('en-US', user_agent=USER_AGENT)`; if
`COOKIES_PATH.exists()` then `client.load_cookies(COOKIES_PATH)` and return;
else `await client.login(auth_info_1=USERNAME, auth_info_2=EMAIL,
password=PASSWORD)` (on failure the error is logged and re-raised, modelled
by `.error e`), then `COOKIES_PATH.parent.mkdir(parents=True, exist_ok=True)`
and `client.save_cookies(COOKIES_PATH)`, and return the client. -/
def get_twitter_client (consts : ModuleConsts) (home : String) (fs : FS)
    (cenv : ClientEnv) : Except String GTCResult :=
  let client : Client :=
    { language := "en-US", user_agent := consts.USER_AGENT
      cookies := none, loggedIn := false }
  if (fs.files (COOKIES_PATH home)).isSome then
    Except.ok
      { client := { client with cookies := fs.files (COOKIES_PATH home) }
        fs := fs
        trace := noEffects }
  else
    match cenv.loginResult with
    | Except.error e => Except.error e
    | Except.ok _ =>
      let client := { client with loggedIn := true, cookies := some cenv.sessionBlob }
      let fs1 := fs.mkdirParents (COOKIES_DIR home)
      let fs2 := fs1.writeFile (COOKIES_PATH home) cenv.sessionBlob
      Except.ok
        { client := client
          fs := fs2
          trace :=
            { loginAttempted := true
              loginArgs := some (consts.USERNAME, consts.EMAIL, consts.PASSWORD)
              mkdirCalled := true, saveCookiesCalled := true } }

/-- `convert_tweets_to_markdown` (lines 115-120 of the source): each tweet
becomes `f"**@{tweet.user.screen_name}** - {tweet.created_at}\n{tweet.text}"`
and the items are joined with `'\n\n'`. -/
def convert_tweets_to_markdown (tweets : List Tweet) : String :=
  joinSep "\n\n"
    (tweets.map (fun tweet =>
      "**@" ++ tweet.user.screen_name ++ "** - " ++ tweet.created_at
        ++ "\n" ++ tweet.text))

/-!
### The active tools

Each `@mcp.tool()` function of the source is a `try/except Exception`
block whose fallible steps are `get_twitter_client` and the external client
calls; every tool takes those external calls as oracle parameters
(`..._call : Client → ... → Except String α`).  An `.error e` anywhere in
the body jumps to the `except` clause, which returns the corresponding
`f"Failed to ...: {e}"` string.
-/

/-- `search_twitter` (lines 41-50). -/
def search_twitter (consts : ModuleConsts) (home : String) (fs : FS) (cenv : ClientEnv)
    (search_tweet_call : Client → String → String → Nat → Except String (List Tweet))
    (query : String) (sort_by : String) (count : Nat) : String :=
  match get_twitter_client consts home fs cenv with
  | Except.error e => "Failed to search tweets: " ++ e
  | Except.ok r =>
    match search_tweet_call r.client query sort_by count with
    | Except.error e => "Failed to search tweets: " ++ e
    | Except.ok tweets => convert_tweets_to_markdown tweets

/-- `get_user_tweets` (lines 52-82): strip leading `'@'`, resolve the user,
bail out with `"Could not find user ..."` on a falsy user, else fetch and
format the tweets. -/
def get_user_tweets (consts : ModuleConsts) (home : String) (fs : FS) (cenv : ClientEnv)
    (get_user_by_screen_name_call : Client → String → Except String (Option User))
    (get_user_tweets_call : Client → String → String → Nat → Except String (List Tweet))
    (username : String) (tweet_type : String) (count : Nat) : String :=
  match get_twitter_client consts home fs cenv with
  | Except.error e => "Failed to get user tweets: " ++ e
  | Except.ok r =>
    let username := lstripAt username
    match get_user_by_screen_name_call r.client username with
    | Except.error e => "Failed to get user tweets: " ++ e
    | Except.ok none => "Could not find user " ++ username
    | Except.ok (some user) =>
      match get_user_tweets_call r.client user.id tweet_type count with
      | Except.error e => "Failed to get user tweets: " ++ e
      | Except.ok tweets => convert_tweets_to_markdown tweets

/-- `get_timeline` (lines 84-97). -/
def get_timeline (consts : ModuleConsts) (home : String) (fs : FS) (cenv : ClientEnv)
    (get_timeline_call : Client → Nat → Except String (List Tweet))
    (count : Nat) : String :=
  match get_twitter_client consts home fs cenv with
  | Except.error e => "Failed to get timeline: " ++ e
  | Except.ok r =>
    match get_timeline_call r.client count with
    | Except.error e => "Failed to get timeline: " ++ e
    | Except.ok tweets => convert_tweets_to_markdown tweets

/-- `get_latest_timeline` (lines 99-112). -/
def get_latest_timeline (consts : ModuleConsts) (home : String) (fs : FS) (cenv : ClientEnv)
    (get_latest_timeline_call : Client → Nat → Except String (List Tweet))
    (count : Nat) : String :=
  match get_twitter_client consts home fs cenv with
  | Except.error e => "Failed to get latest timeline: " ++ e
  | Except.ok r =>
    match get_latest_timeline_call r.client count with
    | Except.error e => "Failed to get latest timeline: " ++ e
    | Except.ok tweets => convert_tweets_to_markdown tweets

/-- `create_tweet` (lines 122-137). -/
def create_tweet (consts : ModuleConsts) (home : String) (fs : FS) (cenv : ClientEnv)
    (create_tweet_call :
      Client → String → Option (List String) → Option String → Except String Tweet)
    (text : String) (media_ids : Option (List String)) (poll_uri : Option String) : String :=
  match get_twitter_client consts home fs cenv with
  | Except.error e => "Failed to create tweet: " ++ e
  | Except.ok r =>
    match create_tweet_call r.client text media_ids poll_uri with
    | Except.error e => "Failed to create tweet: " ++ e
    | Except.ok tweet => "Tweet created successfully: " ++ tweet.id

/-- `reply_to_tweet` (lines 139-154): `client.create_tweet(text=...,
media_ids=..., reply_to=tweet_id)`. -/
def reply_to_tweet (consts : ModuleConsts) (home : String) (fs : FS) (cenv : ClientEnv)
    (create_tweet_reply_call :
      Client → String → Option (List String) → String → Except String Tweet)
    (tweet_id : String) (text : String) (media_ids : Option (List String)) : String :=
  match get_twitter_client consts home fs cenv with
  | Except.error e => "Failed to reply to tweet: " ++ e
  | Except.ok r =>
    match create_tweet_reply_call r.client text media_ids tweet_id with
    | Except.error e => "Failed to reply to tweet: " ++ e
    | Except.ok tweet => "Reply sent successfully: " ++ tweet.id

/-- `like_tweet` (lines 156-169). -/
def like_tweet (consts : ModuleConsts) (home : String) (fs : FS) (cenv : ClientEnv)
    (favorite_tweet_call : Client → String → Except String Unit)
    (tweet_id : String) : String :=
  match get_twitter_client consts home fs cenv with
  | Except.error e => "Failed to like tweet: " ++ e
  | Except.ok r =>
    match favorite_tweet_call r.client tweet_id with
    | Except.error e => "Failed to like tweet: " ++ e
    | Except.ok _ => "Tweet " ++ tweet_id ++ " liked successfully."

/-- `retweet` (lines 186-199). -/
def retweet (consts : ModuleConsts) (home : String) (fs : FS) (cenv : ClientEnv)
    (retweet_call : Client → String → Except String Unit)
    (tweet_id : String) : String :=
  match get_twitter_client consts home fs cenv with
  | Except.error e => "Failed to retweet: " ++ e
  | Except.ok r =>
    match retweet_call r.client tweet_id with
    | Except.error e => "Failed to retweet: " ++ e
    | Except.ok _ => "Tweet " ++ tweet_id ++ " retweeted successfully."

/-- `follow_user` (lines 216-233). -/
def follow_user (consts : ModuleConsts) (home : String) (fs : FS) (cenv : ClientEnv)
    (get_user_by_screen_name_call : Client → String → Except String (Option User))
    (follow_user_call : Client → String → Except String Unit)
    (username : String) : String :=
  match get_twitter_client consts home fs cenv with
  | Except.error e => "Failed to follow user: " ++ e
  | Except.ok r =>
    let username := lstripAt username
    match get_user_by_screen_name_call r.client username with
    | Except.error e => "Failed to follow user: " ++ e
    | Except.ok none => "Could not find user " ++ username
    | Except.ok (some user) =>
      match follow_user_call r.client user.id with
      | Except.error e => "Failed to follow user: " ++ e
      | Except.ok _ => "Successfully followed user " ++ username

/-- `unfollow_user` (lines 235-252). -/
def unfollow_user (consts : ModuleConsts) (home : String) (fs : FS) (cenv : ClientEnv)
    (get_user_by_screen_name_call : Client → String → Except String (Option User))
    (unfollow_user_call : Client → String → Except String Unit)
    (username : String) : String :=
  match get_twitter_client consts home fs cenv with
  | Except.error e => "Failed to unfollow user: " ++ e
  | Except.ok r =>
    let username := lstripAt username
    match get_user_by_screen_name_call r.client username with
    | Except.error e => "Failed to unfollow user: " ++ e
    | Except.ok none => "Could not find user " ++ username
    | Except.ok (some user) =>
      match unfollow_user_call r.client user.id with
      | Except.error e => "Failed to unfollow user: " ++ e
      | Except.ok _ => "Successfully unfollowed user " ++ username

/-- `block_user` (lines 254-271). -/
def block_user (consts : ModuleConsts) (home : String) (fs : FS) (cenv : ClientEnv)
    (get_user_by_screen_name_call : Client → String → Except String (Option User))
    (block_user_call : Client → String → Except String Unit)
    (username : String) : String :=
  match get_twitter_client consts home fs cenv with
  | Except.error e => "Failed to block user: " ++ e
  | Except.ok r =>
    let username := lstripAt username
    match get_user_by_screen_name_call r.client username with
    | Except.error e => "Failed to block user: " ++ e
    | Except.ok none => "Could not find user " ++ username
    | Except.ok (some user) =>
      match block_user_call r.client user.id with
      | Except.error e => "Failed to block user: " ++ e
      | Except.ok _ => "Successfully blocked user " ++ username

/-- `unblock_user` (lines 273-290). -/
def unblock_user (consts : ModuleConsts) (home : String) (fs : FS) (cenv : ClientEnv)
    (get_user_by_screen_name_call : Client → String → Except String (Option User))
    (unblock_user_call : Client → String → Except String Unit)
    (username : String) : String :=
  match get_twitter_client consts home fs cenv with
  | Except.error e => "Failed to unblock user: " ++ e
  | Except.ok r =>
    let username := lstripAt username
    match get_user_by_screen_name_call r.client username with
    | Except.error e => "Failed to unblock user: " ++ e
    | Except.ok none => "Could not find user " ++ username
    | Except.ok (some user) =>
      match unblock_user_call r.client user.id with
      | Except.error e => "Failed to unblock user: " ++ e
      | Except.ok _ => "Successfully unblocked user " ++ username

/-- `get_user_by_screen_name` (lines 330-358): note the not-found message of
this tool is `"Could not find user with screen name {username}"` and the
success text is the multi-line `user_info` block, every line ending in
`"\n"`; Python renders the `bool` field as `True`/`False`. -/
def get_user_by_screen_name (consts : ModuleConsts) (home : String) (fs : FS)
    (cenv : ClientEnv)
    (get_user_by_screen_name_call : Client → String → Except String (Option User))
    (username : String) : String :=
  match get_twitter_client consts home fs cenv with
  | Except.error e => "Failed to retrieve user by screen name: " ++ e
  | Except.ok r =>
    let username := lstripAt username
    match get_user_by_screen_name_call r.client username with
    | Except.error e => "Failed to retrieve user by screen name: " ++ e
    | Except.ok none => "Could not find user with screen name " ++ username
    | Except.ok (some user) =>
      "ID: " ++ user.id ++ "\n"
        ++ "Name: " ++ user.name ++ "\n"
        ++ "Screen Name: " ++ user.screen_name ++ "\n"
        ++ "Description: " ++ user.description ++ "\n"
        ++ "Verified: " ++ (if user.verified then "True" else "False") ++ "\n"
        ++ "Followers Count: " ++ toString user.followers_count ++ "\n"
        ++ "Following Count: " ++ toString user.following_count ++ "\n"
        ++ "Location: " ++ user.location ++ "\n"
        ++ "Created At: " ++ user.created_at ++ "\n"
        ++ "Profile Image URL: " ++ user.profile_image_url ++ "\n"
        ++ "Profile Banner URL: " ++ user.profile_banner_url ++ "\n"

/-- `get_user_followers` (lines 360-377): the `except` clause interpolates
the variable `username`, which still holds the caller's original string if
`get_twitter_client` raised, and the stripped string if a later call
raised. -/
def get_user_followers (consts : ModuleConsts) (home : String) (fs : FS) (cenv : ClientEnv)
    (get_user_by_screen_name_call : Client → String → Except String (Option User))
    (get_user_followers_call : Client → String → Nat → Except String (List User))
    (username : String) (count : Nat) : String :=
  match get_twitter_client consts home fs cenv with
  | Except.error e => "Failed to get followers for user " ++ username ++ ": " ++ e
  | Except.ok r =>
    let username := lstripAt username
    match get_user_by_screen_name_call r.client username with
    | Except.error e => "Failed to get followers for user " ++ username ++ ": " ++ e
    | Except.ok none => "Could not find user " ++ username
    | Except.ok (some user) =>
      match get_user_followers_call r.client user.id count with
      | Except.error e => "Failed to get followers for user " ++ username ++ ": " ++ e
      | Except.ok followers =>
        "Followers of " ++ username ++ ":\n"
          ++ joinSep "\n" (followers.map (fun follower =>
              "  - @" ++ follower.screen_name ++ " (ID: " ++ follower.id ++ ")"))

/-- `get_user_following` (lines 379-396), with the same `username`
rebinding behaviour as `get_user_followers`. -/
def get_user_following (consts : ModuleConsts) (home : String) (fs : FS) (cenv : ClientEnv)
    (get_user_by_screen_name_call : Client → String → Except String (Option User))
    (get_user_following_call : Client → String → Nat → Except String (List User))
    (username : String) (count : Nat) : String :=
  match get_twitter_client consts home fs cenv with
  | Except.error e => "Failed to get following list for user " ++ username ++ ": " ++ e
  | Except.ok r =>
    let username := lstripAt username
    match get_user_by_screen_name_call r.client username with
    | Except.error e => "Failed to get following list for user " ++ username ++ ": " ++ e
    | Except.ok none => "Could not find user " ++ username
    | Except.ok (some user) =>
      match get_user_following_call r.client user.id count with
      | Except.error e => "Failed to get following list for user " ++ username ++ ": " ++ e
      | Except.ok following =>
        "Users followed by " ++ username ++ ":\n"
          ++ joinSep "\n" (following.map (fun followed_user =>
              "  - @" ++ followed_user.screen_name ++ " (ID: " ++ followed_user.id ++ ")"))

/-- `send_dm` (lines 398-413). -/
def send_dm (consts : ModuleConsts) (home : String) (fs : FS) (cenv : ClientEnv)
    (send_dm_call : Client → String → String → Option String → Except String Message)
    (user_id : String) (text : String) (media_id : Option String) : String :=
  match get_twitter_client consts home fs cenv with
  | Except.error e => "Failed to send DM: " ++ e
  | Except.ok r =>
    match send_dm_call r.client user_id text media_id with
    | Except.error e => "Failed to send DM: " ++ e
    | Except.ok message => "Direct message sent successfully: " ++ message.id

/-- `get_trends` (lines 501-517). -/
def get_trends (consts : ModuleConsts) (home : String) (fs : FS) (cenv : ClientEnv)
    (get_trends_call : Client → String → Nat → Except String (List Trend))
    (category : String) (count : Nat) : String :=
  match get_twitter_client consts home fs cenv with
  | Except.error e => "Failed to get trends: " ++ e
  | Except.ok r =>
    match get_trends_call r.client category count with
    | Except.error e => "Failed to get trends: " ++ e
    | Except.ok trends =>
      "Trends in " ++ category ++ ":\n"
        ++ joinSep "\n" (trends.map (fun trend =>
            "  - " ++ trend.name ++ " (Tweets: " ++ toString trend.tweets_count ++ ")"))

/-!
### Exception shadows

For each tool, a `Bool`-valued definition that mirrors the tool's control
flow and records whether an exception is thrown anywhere in its `try`
body (by `get_twitter_client`, by the user lookup, or by the action call).
These are the formal reading of "an exception is thrown in the tool body".
-/

/-- An `Except` value is an error. -/
def isErr {ε α : Type} : Except ε α → Bool
  | Except.error _ => true
  | Except.ok _ => false

/-- Whether `search_twitter`'s body throws. -/
def search_twitter_raises (consts : ModuleConsts) (home : String) (fs : FS)
    (cenv : ClientEnv)
    (search_tweet_call : Client → String → String → Nat → Except String (List Tweet))
    (query : String) (sort_by : String) (count : Nat) : Bool :=
  match get_twitter_client consts home fs cenv with
  | Except.error _ => true
  | Except.ok r => isErr (search_tweet_call r.client query sort_by count)

/-- Whether `get_user_tweets`'s body throws. -/
def get_user_tweets_raises (consts : ModuleConsts) (home : String) (fs : FS)
    (cenv : ClientEnv)
    (get_user_by_screen_name_call : Client → String → Except String (Option User))
    (get_user_tweets_call : Client → String → String → Nat → Except String (List Tweet))
    (username : String) (tweet_type : String) (count : Nat) : Bool :=
  match get_twitter_client consts home fs cenv with
  | Except.error _ => true
  | Except.ok r =>
    match get_user_by_screen_name_call r.client (lstripAt username) with
    | Except.error _ => true
    | Except.ok none => false
    | Except.ok (some user) =>
      isErr (get_user_tweets_call r.client user.id tweet_type count)

/-- Whether `get_timeline`'s body throws. -/
def get_timeline_raises (consts : ModuleConsts) (home : String) (fs : FS)
    (cenv : ClientEnv)
    (get_timeline_call : Client → Nat → Except String (List Tweet))
    (count : Nat) : Bool :=
  match get_twitter_client consts home fs cenv with
  | Except.error _ => true
  | Except.ok r => isErr (get_timeline_call r.client count)

/-- Whether `get_latest_timeline`'s body throws. -/
def get_latest_timeline_raises (consts : ModuleConsts) (home : String) (fs : FS)
    (cenv : ClientEnv)
    (get_latest_timeline_call : Client → Nat → Except String (List Tweet))
    (count : Nat) : Bool :=
  match get_twitter_client consts home fs cenv with
  | Except.error _ => true
  | Except.ok r => isErr (get_latest_timeline_call r.client count)

/-- Whether `create_tweet`'s body throws. -/
def create_tweet_raises (consts : ModuleConsts) (home : String) (fs : FS)
    (cenv : ClientEnv)
    (create_tweet_call :
      Client → String → Option (List String) → Option String → Except String Tweet)
    (text : String) (media_ids : Option (List String)) (poll_uri : Option String) : Bool :=
  match get_twitter_client consts home fs cenv with
  | Except.error _ => true
  | Except.ok r => isErr (create_tweet_call r.client text media_ids poll_uri)

/-- Whether `reply_to_tweet`'s body throws. -/
def reply_to_tweet_raises (consts : ModuleConsts) (home : String) (fs : FS)
    (cenv : ClientEnv)
    (create_tweet_reply_call :
      Client → String → Option (List String) → String → Except String Tweet)
    (tweet_id : String) (text : String) (media_ids : Option (List String)) : Bool :=
  match get_twitter_client consts home fs cenv with
  | Except.error _ => true
  | Except.ok r => isErr (create_tweet_reply_call r.client text media_ids tweet_id)

/-- Whether `like_tweet`'s body throws. -/
def like_tweet_raises (consts : ModuleConsts) (home : String) (fs : FS)
    (cenv : ClientEnv)
    (favorite_tweet_call : Client → String → Except String Unit)
    (tweet_id : String) : Bool :=
  match get_twitter_client consts home fs cenv with
  | Except.error _ => true
  | Except.ok r => isErr (favorite_tweet_call r.client tweet_id)

/-- Whether `retweet`'s body throws. -/
def retweet_raises (consts : ModuleConsts) (home : String) (fs : FS)
    (cenv : ClientEnv)
    (retweet_call : Client → String → Except String Unit)
    (tweet_id : String) : Bool :=
  match get_twitter_client consts home fs cenv with
  | Except.error _ => true
  | Except.ok r => isErr (retweet_call r.client tweet_id)

/-- Whether `follow_user`'s body throws. -/
def follow_user_raises (consts : ModuleConsts) (home : String) (fs : FS)
    (cenv : ClientEnv)
    (get_user_by_screen_name_call : Client → String → Except String (Option User))
    (follow_user_call : Client → String → Except String Unit)
    (username : String) : Bool :=
  match get_twitter_client consts home fs cenv with
  | Except.error _ => true
  | Except.ok r =>
    match get_user_by_screen_name_call r.client (lstripAt username) with
    | Except.error _ => true
    | Except.ok none => false
    | Except.ok (some user) => isErr (follow_user_call r.client user.id)

/-- Whether `unfollow_user`'s body throws. -/
def unfollow_user_raises (consts : ModuleConsts) (home : String) (fs : FS)
    (cenv : ClientEnv)
    (get_user_by_screen_name_call : Client → String → Except String (Option User))
    (unfollow_user_call : Client → String → Except String Unit)
    (username : String) : Bool :=
  match get_twitter_client consts home fs cenv with
  | Except.error _ => true
  | Except.ok r =>
    match get_user_by_screen_name_call r.client (lstripAt username) with
    | Except.error _ => true
    | Except.ok none => false
    | Except.ok (some user) => isErr (unfollow_user_call r.client user.id)

/-- Whether `block_user`'s body throws. -/
def block_user_raises (consts : ModuleConsts) (home : String) (fs : FS)
    (cenv : ClientEnv)
    (get_user_by_screen_name_call : Client → String → Except String (Option User))
    (block_user_call : Client → String → Except String Unit)
    (username : String) : Bool :=
  match get_twitter_client consts home fs cenv with
  | Except.error _ => true
  | Except.ok r =>
    match get_user_by_screen_name_call r.client (lstripAt username) with
    | Except.error _ => true
    | Except.ok none => false
    | Except.ok (some user) => isErr (block_user_call r.client user.id)

/-- Whether `unblock_user`'s body throws. -/
def unblock_user_raises (consts : ModuleConsts) (home : String) (fs : FS)
    (cenv : ClientEnv)
    (get_user_by_screen_name_call : Client → String → Except String (Option User))
    (unblock_user_call : Client → String → Except String Unit)
    (username : String) : Bool :=
  match get_twitter_client consts home fs cenv with
  | Except.error _ => true
  | Except.ok r =>
    match get_user_by_screen_name_call r.client (lstripAt username) with
    | Except.error _ => true
    | Except.ok none => false
    | Except.ok (some user) => isErr (unblock_user_call r.client user.id)

/-- Whether `get_user_by_screen_name`'s body throws. -/
def get_user_by_screen_name_raises (consts : ModuleConsts) (home : String) (fs : FS)
    (cenv : ClientEnv)
    (get_user_by_screen_name_call : Client → String → Except String (Option User))
    (username : String) : Bool :=
  match get_twitter_client consts home fs cenv with
  | Except.error _ => true
  | Except.ok r => isErr (get_user_by_screen_name_call r.client (lstripAt username))

/-- Whether `get_user_followers`'s body throws. -/
def get_user_followers_raises (consts : ModuleConsts) (home : String) (fs : FS)
    (cenv : ClientEnv)
    (get_user_by_screen_name_call : Client → String → Except String (Option User))
    (get_user_followers_call : Client → String → Nat → Except String (List User))
    (username : String) (count : Nat) : Bool :=
  match get_twitter_client consts home fs cenv with
  | Except.error _ => true
  | Except.ok r =>
    match get_user_by_screen_name_call r.client (lstripAt username) with
    | Except.error _ => true
    | Except.ok none => false
    | Except.ok (some user) =>
      isErr (get_user_followers_call r.client user.id count)

/-- Whether `get_user_following`'s body throws. -/
def get_user_following_raises (consts : ModuleConsts) (home : String) (fs : FS)
    (cenv : ClientEnv)
    (get_user_by_screen_name_call : Client → String → Except String (Option User))
    (get_user_following_call : Client → String → Nat → Except String (List User))
    (username : String) (count : Nat) : Bool :=
  match get_twitter_client consts home fs cenv with
  | Except.error _ => true
  | Except.ok r =>
    match get_user_by_screen_name_call r.client (lstripAt username) with
    | Except.error _ => true
    | Except.ok none => false
    | Except.ok (some user) =>
      isErr (get_user_following_call r.client user.id count)

/-- Whether `send_dm`'s body throws. -/
def send_dm_raises (consts : ModuleConsts) (home : String) (fs : FS)
    (cenv : ClientEnv)
    (send_dm_call : Client → String → String → Option String → Except String Message)
    (user_id : String) (text : String) (media_id : Option String) : Bool :=
  match get_twitter_client consts home fs cenv with
  | Except.error _ => true
  | Except.ok r => isErr (send_dm_call r.client user_id text media_id)

/-- Whether `get_trends`'s body throws. -/
def get_trends_raises (consts : ModuleConsts) (home : String) (fs : FS)
    (cenv : ClientEnv)
    (get_trends_call : Client → String → Nat → Except String (List Trend))
    (category : String) (count : Nat) : Bool :=
  match get_twitter_client consts home fs cenv with
  | Except.error _ => true
  | Except.ok r => isErr (get_trends_call r.client category count)

/-!
### Generic lemmas about the string model
-/

theorem strData_append (s t : String) : (s ++ t).data = s.data ++ t.data := by
  cases s; cases t; rfl

theorem charsBeginWith_append_left (p : List Char) :
    ∀ t u : List Char, charsBeginWith p t = true → charsBeginWith p (t ++ u) = true := by
  induction p with
  | nil => intro t u _; rfl
  | cons a as ih =>
    intro t u h
    cases t with
    | nil => simp [charsBeginWith] at h
    | cons b bs =>
      simp only [charsBeginWith, Bool.and_eq_true] at h
      simp only [List.cons_append, charsBeginWith, Bool.and_eq_true]
      exact ⟨h.1, ih bs u h.2⟩

theorem charsBeginWith_false_of_mismatch (p : List Char) :
    ∀ t u : List Char, charsMismatch p t = true → charsBeginWith p (t ++ u) = false := by
  induction p with
  | nil => intro t u h; simp [charsMismatch] at h
  | cons a as ih =>
    intro t u h
    cases t with
    | nil => simp [charsMismatch] at h
    | cons b bs =>
      show charsBeginWith (a :: as) (b :: (bs ++ u)) = false
      by_cases hab : a == b
      · simp only [charsMismatch, if_pos hab] at h
        simp only [charsBeginWith]
        rw [ih bs u h, Bool.and_false]
      · have hab' : (a == b) = false := by simpa using hab
        simp only [charsBeginWith]
        rw [hab', Bool.false_and]

theorem charsMismatch_append (p : List Char) :
    ∀ t u : List Char, charsMismatch p t = true → charsMismatch p (t ++ u) = true := by
  induction p with
  | nil => intro t u h; simp [charsMismatch] at h
  | cons a as ih =>
    intro t u h
    cases t with
    | nil => simp [charsMismatch] at h
    | cons b bs =>
      show charsMismatch (a :: as) (b :: (bs ++ u)) = true
      by_cases hab : a == b
      · simp only [charsMismatch, if_pos hab] at h
        simp only [charsMismatch, if_pos hab]
        exact ih bs u h
      · simp only [charsMismatch, if_neg hab]

theorem strBeginsWith_append_true (p t u : String) (h : strBeginsWith p t = true) :
    strBeginsWith p (t ++ u) = true := by
  unfold strBeginsWith at *
  rw [strData_append]
  exact charsBeginWith_append_left p.data t.data u.data h

theorem strMismatch_append (p t u : String) (h : strMismatch p t = true) :
    strMismatch p (t ++ u) = true := by
  unfold strMismatch at *
  rw [strData_append]
  exact charsMismatch_append p.data t.data u.data h

theorem strBeginsWith_false_of_strMismatch (p s : String) (h : strMismatch p s = true) :
    strBeginsWith p s = false := by
  unfold strBeginsWith
  have := charsBeginWith_false_of_mismatch p.data s.data [] h
  rwa [List.append_nil] at this

/-!
### Lemmas about `lstripAt`
-/

theorem lstripAtChars_at_cons (l : List Char) :
    lstripAtChars ('@' :: l) = lstripAtChars l := by
  simp [lstripAtChars]

theorem lstripAtChars_replicate (k : Nat) (l : List Char) :
    lstripAtChars (List.replicate k '@' ++ l) = lstripAtChars l := by
  induction k with
  | zero => rfl
  | succ n ih => simpa [List.replicate, lstripAtChars] using ih

theorem lstripAtChars_no_at (l : List Char)
    (h : charsBeginWith ['@'] l = false) : lstripAtChars l = l := by
  cases l with
  | nil => rfl
  | cons c rest =>
    simp only [charsBeginWith, Bool.and_true] at h
    have hc : ¬ c = '@' := by
      intro hc; subst hc; simp at h
    simp [lstripAtChars, hc]

theorem lstripAt_at_append (s : String) : lstripAt ("@" ++ s) = lstripAt s := by
  cases s with
  | mk l =>
    show String.mk (lstripAtChars ('@' :: l)) = String.mk (lstripAtChars l)
    rw [lstripAtChars_at_cons]

/-- A run of `k` `'@'` characters. -/
def atRun (k : Nat) : String := String.mk (List.replicate k '@')

theorem lstripAt_atRun_append (k : Nat) (s : String)
    (h : strBeginsWith "@" s = false) : lstripAt (atRun k ++ s) = s := by
  cases s with
  | mk l =>
    show String.mk (lstripAtChars (List.replicate k '@' ++ l)) = String.mk l
    rw [lstripAtChars_replicate]
    rw [lstripAtChars_no_at l h]

/-!
### Convenient concrete states
-/

/-- A filesystem holding exactly the cookie artifact for `home`, with
content `blob`. -/
def fsWithCookies (home blob : String) : FS :=
  { files := fun p => if p = COOKIES_PATH home then some blob else none
    dirs := fun d => if d = COOKIES_DIR home then true else false }

/-- The client that `get_twitter_client` returns on the cookie-load path. -/
def loadedClient (consts : ModuleConsts) (blob : String) : Client :=
  { language := "en-US", user_agent := consts.USER_AGENT
    cookies := some blob, loggedIn := false }

theorem gtc_fsWithCookies (consts : ModuleConsts) (home blob : String)
    (cenv : ClientEnv) :
    get_twitter_client consts home (fsWithCookies home blob) cenv =
      Except.ok
        { client := loadedClient consts blob
          fs := fsWithCookies home blob
          trace := noEffects } := by
  simp [get_twitter_client, fsWithCookies, loadedClient]

/-!
### The markdown formatter never produces a "Failed to" text
-/

theorem convert_not_failed (ts : List Tweet) :
    strBeginsWith "Failed to" (convert_tweets_to_markdown ts) = false := by
  cases ts with
  | nil => decide
  | cons t rest =>
    cases rest with
    | nil =>
      show strBeginsWith "Failed to"
        ("**@" ++ t.user.screen_name ++ "** - " ++ t.created_at ++ "\n" ++ t.text) = false
      apply strBeginsWith_false_of_strMismatch
      repeat apply strMismatch_append
      decide
    | cons t2 rest2 =>
      show strBeginsWith "Failed to"
        (("**@" ++ t.user.screen_name ++ "** - " ++ t.created_at ++ "\n" ++ t.text)
          ++ "\n\n" ++ joinSep "\n\n"
            ((t2 :: rest2).map (fun tweet =>
              "**@" ++ tweet.user.screen_name ++ "** - " ++ tweet.created_at
                ++ "\n" ++ tweet.text))) = false
      apply strBeginsWith_false_of_strMismatch
      repeat apply strMismatch_append
      decide

/-!
### Per-tool lemmas: the result text begins with "Failed to" exactly when
the tool body threw
-/

theorem search_twitter_failed_iff (consts : ModuleConsts) (home : String) (fs : FS)
    (cenv : ClientEnv)
    (st : Client → String → String → Nat → Except String (List Tweet))
    (q sb : String) (n : Nat) :
    strBeginsWith "Failed to" (search_twitter consts home fs cenv st q sb n)
      = search_twitter_raises consts home fs cenv st q sb n := by
  unfold search_twitter search_twitter_raises
  cases hg : get_twitter_client consts home fs cenv with
  | error e =>
    repeat apply strBeginsWith_append_true
    decide
  | ok r =>
    cases hs : st r.client q sb n with
    | error e =>
      simp only [hs, isErr]
      repeat apply strBeginsWith_append_true
      decide
    | ok tweets =>
      simp only [hs, isErr]
      exact convert_not_failed tweets

theorem get_timeline_failed_iff (consts : ModuleConsts) (home : String) (fs : FS)
    (cenv : ClientEnv) (gt : Client → Nat → Except String (List Tweet)) (n : Nat) :
    strBeginsWith "Failed to" (get_timeline consts home fs cenv gt n)
      = get_timeline_raises consts home fs cenv gt n := by
  unfold get_timeline get_timeline_raises
  cases hg : get_twitter_client consts home fs cenv with
  | error e =>
    repeat apply strBeginsWith_append_true
    decide
  | ok r =>
    cases hs : gt r.client n with
    | error e =>
      simp only [hs, isErr]
      repeat apply strBeginsWith_append_true
      decide
    | ok tweets =>
      simp only [hs, isErr]
      exact convert_not_failed tweets

theorem get_latest_timeline_failed_iff (consts : ModuleConsts) (home : String) (fs : FS)
    (cenv : ClientEnv) (gt : Client → Nat → Except String (List Tweet)) (n : Nat) :
    strBeginsWith "Failed to" (get_latest_timeline consts home fs cenv gt n)
      = get_latest_timeline_raises consts home fs cenv gt n := by
  unfold get_latest_timeline get_latest_timeline_raises
  cases hg : get_twitter_client consts home fs cenv with
  | error e =>
    repeat apply strBeginsWith_append_true
    decide
  | ok r =>
    cases hs : gt r.client n with
    | error e =>
      simp only [hs, isErr]
      repeat apply strBeginsWith_append_true
      decide
    | ok tweets =>
      simp only [hs, isErr]
      exact convert_not_failed tweets

theorem create_tweet_failed_iff (consts : ModuleConsts) (home : String) (fs : FS)
    (cenv : ClientEnv)
    (ct : Client → String → Option (List String) → Option String → Except String Tweet)
    (text : String) (mids : Option (List String)) (pu : Option String) :
    strBeginsWith "Failed to" (create_tweet consts home fs cenv ct text mids pu)
      = create_tweet_raises consts home fs cenv ct text mids pu := by
  unfold create_tweet create_tweet_raises
  cases hg : get_twitter_client consts home fs cenv with
  | error e =>
    repeat apply strBeginsWith_append_true
    decide
  | ok r =>
    cases hs : ct r.client text mids pu with
    | error e =>
      simp only [hs, isErr]
      repeat apply strBeginsWith_append_true
      decide
    | ok tweet =>
      simp only [hs, isErr]
      apply strBeginsWith_false_of_strMismatch
      repeat apply strMismatch_append
      decide

theorem reply_to_tweet_failed_iff (consts : ModuleConsts) (home : String) (fs : FS)
    (cenv : ClientEnv)
    (ct : Client → String → Option (List String) → String → Except String Tweet)
    (tid text : String) (mids : Option (List String)) :
    strBeginsWith "Failed to" (reply_to_tweet consts home fs cenv ct tid text mids)
      = reply_to_tweet_raises consts home fs cenv ct tid text mids := by
  unfold reply_to_tweet reply_to_tweet_raises
  cases hg : get_twitter_client consts home fs cenv with
  | error e =>
    repeat apply strBeginsWith_append_true
    decide
  | ok r =>
    cases hs : ct r.client text mids tid with
    | error e =>
      simp only [hs, isErr]
      repeat apply strBeginsWith_append_true
      decide
    | ok tweet =>
      simp only [hs, isErr]
      apply strBeginsWith_false_of_strMismatch
      repeat apply strMismatch_append
      decide

theorem like_tweet_failed_iff (consts : ModuleConsts) (home : String) (fs : FS)
    (cenv : ClientEnv) (fav : Client → String → Except String Unit) (tid : String) :
    strBeginsWith "Failed to" (like_tweet consts home fs cenv fav tid)
      = like_tweet_raises consts home fs cenv fav tid := by
  unfold like_tweet like_tweet_raises
  cases hg : get_twitter_client consts home fs cenv with
  | error e =>
    repeat apply strBeginsWith_append_true
    decide
  | ok r =>
    cases hs : fav r.client tid with
    | error e =>
      simp only [hs, isErr]
      repeat apply strBeginsWith_append_true
      decide
    | ok u =>
      simp only [hs, isErr]
      apply strBeginsWith_false_of_strMismatch
      repeat apply strMismatch_append
      decide

theorem retweet_failed_iff (consts : ModuleConsts) (home : String) (fs : FS)
    (cenv : ClientEnv) (rt : Client → String → Except String Unit) (tid : String) :
    strBeginsWith "Failed to" (retweet consts home fs cenv rt tid)
      = retweet_raises consts home fs cenv rt tid := by
  unfold retweet retweet_raises
  cases hg : get_twitter_client consts home fs cenv with
  | error e =>
    repeat apply strBeginsWith_append_true
    decide
  | ok r =>
    cases hs : rt r.client tid with
    | error e =>
      simp only [hs, isErr]
      repeat apply strBeginsWith_append_true
      decide
    | ok u =>
      simp only [hs, isErr]
      apply strBeginsWith_false_of_strMismatch
      repeat apply strMismatch_append
      decide

theorem send_dm_failed_iff (consts : ModuleConsts) (home : String) (fs : FS)
    (cenv : ClientEnv)
    (sd : Client → String → String → Option String → Except String Message)
    (uid text : String) (mid : Option String) :
    strBeginsWith "Failed to" (send_dm consts home fs cenv sd uid text mid)
      = send_dm_raises consts home fs cenv sd uid text mid := by
  unfold send_dm send_dm_raises
  cases hg : get_twitter_client consts home fs cenv with
  | error e =>
    repeat apply strBeginsWith_append_true
    decide
  | ok r =>
    cases hs : sd r.client uid text mid with
    | error e =>
      simp only [hs, isErr]
      repeat apply strBeginsWith_append_true
      decide
    | ok message =>
      simp only [hs, isErr]
      apply strBeginsWith_false_of_strMismatch
      repeat apply strMismatch_append
      decide

theorem get_trends_failed_iff (consts : ModuleConsts) (home : String) (fs : FS)
    (cenv : ClientEnv) (gt : Client → String → Nat → Except String (List Trend))
    (cat : String) (n : Nat) :
    strBeginsWith "Failed to" (get_trends consts home fs cenv gt cat n)
      = get_trends_raises consts home fs cenv gt cat n := by
  unfold get_trends get_trends_raises
  cases hg : get_twitter_client consts home fs cenv with
  | error e =>
    repeat apply strBeginsWith_append_true
    decide
  | ok r =>
    cases hs : gt r.client cat n with
    | error e =>
      simp only [hs, isErr]
      repeat apply strBeginsWith_append_true
      decide
    | ok trends =>
      simp only [hs, isErr]
      apply strBeginsWith_false_of_strMismatch
      repeat apply strMismatch_append
      decide

theorem get_user_tweets_failed_iff (consts : ModuleConsts) (home : String) (fs : FS)
    (cenv : ClientEnv)
    (lk : Client → String → Except String (Option User))
    (gut : Client → String → String → Nat → Except String (List Tweet))
    (username tt : String) (n : Nat) :
    strBeginsWith "Failed to" (get_user_tweets consts home fs cenv lk gut username tt n)
      = get_user_tweets_raises consts home fs cenv lk gut username tt n := by
  unfold get_user_tweets get_user_tweets_raises
  cases hg : get_twitter_client consts home fs cenv with
  | error e =>
    repeat apply strBeginsWith_append_true
    decide
  | ok r =>
    cases hl : lk r.client (lstripAt username) with
    | error e =>
      simp only [hl]
      repeat apply strBeginsWith_append_true
      decide
    | ok uo =>
      cases uo with
      | none =>
        simp only [hl]
        apply strBeginsWith_false_of_strMismatch
        repeat apply strMismatch_append
        decide
      | some user =>
        cases ha : gut r.client user.id tt n with
        | error e =>
          simp only [hl, ha, isErr]
          repeat apply strBeginsWith_append_true
          decide
        | ok tweets =>
          simp only [hl, ha, isErr]
          exact convert_not_failed tweets

theorem follow_user_failed_iff (consts : ModuleConsts) (home : String) (fs : FS)
    (cenv : ClientEnv)
    (lk : Client → String → Except String (Option User))
    (fl : Client → String → Except String Unit)
    (username : String) :
    strBeginsWith "Failed to" (follow_user consts home fs cenv lk fl username)
      = follow_user_raises consts home fs cenv lk fl username := by
  unfold follow_user follow_user_raises
  cases hg : get_twitter_client consts home fs cenv with
  | error e =>
    repeat apply strBeginsWith_append_true
    decide
  | ok r =>
    cases hl : lk r.client (lstripAt username) with
    | error e =>
      simp only [hl]
      repeat apply strBeginsWith_append_true
      decide
    | ok uo =>
      cases uo with
      | none =>
        simp only [hl]
        apply strBeginsWith_false_of_strMismatch
        repeat apply strMismatch_append
        decide
      | some user =>
        cases ha : fl r.client user.id with
        | error e =>
          simp only [hl, ha, isErr]
          repeat apply strBeginsWith_append_true
          decide
        | ok u =>
          simp only [hl, ha, isErr]
          apply strBeginsWith_false_of_strMismatch
          repeat apply strMismatch_append
          decide

theorem unfollow_user_failed_iff (consts : ModuleConsts) (home : String) (fs : FS)
    (cenv : ClientEnv)
    (lk : Client → String → Except String (Option User))
    (fl : Client → String → Except String Unit)
    (username : String) :
    strBeginsWith "Failed to" (unfollow_user consts home fs cenv lk fl username)
      = unfollow_user_raises consts home fs cenv lk fl username := by
  unfold unfollow_user unfollow_user_raises
  cases hg : get_twitter_client consts home fs cenv with
  | error e =>
    repeat apply strBeginsWith_append_true
    decide
  | ok r =>
    cases hl : lk r.client (lstripAt username) with
    | error e =>
      simp only [hl]
      repeat apply strBeginsWith_append_true
      decide
    | ok uo =>
      cases uo with
      | none =>
        simp only [hl]
        apply strBeginsWith_false_of_strMismatch
        repeat apply strMismatch_append
        decide
      | some user =>
        cases ha : fl r.client user.id with
        | error e =>
          simp only [hl, ha, isErr]
          repeat apply strBeginsWith_append_true
          decide
        | ok u =>
          simp only [hl, ha, isErr]
          apply strBeginsWith_false_of_strMismatch
          repeat apply strMismatch_append
          decide

theorem block_user_failed_iff (consts : ModuleConsts) (home : String) (fs : FS)
    (cenv : ClientEnv)
    (lk : Client → String → Except String (Option User))
    (bl : Client → String → Except String Unit)
    (username : String) :
    strBeginsWith "Failed to" (block_user consts home fs cenv lk bl username)
      = block_user_raises consts home fs cenv lk bl username := by
  unfold block_user block_user_raises
  cases hg : get_twitter_client consts home fs cenv with
  | error e =>
    repeat apply strBeginsWith_append_true
    decide
  | ok r =>
    cases hl : lk r.client (lstripAt username) with
    | error e =>
      simp only [hl]
      repeat apply strBeginsWith_append_true
      decide
    | ok uo =>
      cases uo with
      | none =>
        simp only [hl]
        apply strBeginsWith_false_of_strMismatch
        repeat apply strMismatch_append
        decide
      | some user =>
        cases ha : bl r.client user.id with
        | error e =>
          simp only [hl, ha, isErr]
          repeat apply strBeginsWith_append_true
          decide
        | ok u =>
          simp only [hl, ha, isErr]
          apply strBeginsWith_false_of_strMismatch
          repeat apply strMismatch_append
          decide

theorem unblock_user_failed_iff (consts : ModuleConsts) (home : String) (fs : FS)
    (cenv : ClientEnv)
    (lk : Client → String → Except String (Option User))
    (bl : Client → String → Except String Unit)
    (username : String) :
    strBeginsWith "Failed to" (unblock_user consts home fs cenv lk bl username)
      = unblock_user_raises consts home fs cenv lk bl username := by
  unfold unblock_user unblock_user_raises
  cases hg : get_twitter_client consts home fs cenv with
  | error e =>
    repeat apply strBeginsWith_append_true
    decide
  | ok r =>
    cases hl : lk r.client (lstripAt username) with
    | error e =>
      simp only [hl]
      repeat apply strBeginsWith_append_true
      decide
    | ok uo =>
      cases uo with
      | none =>
        simp only [hl]
        apply strBeginsWith_false_of_strMismatch
        repeat apply strMismatch_append
        decide
      | some user =>
        cases ha : bl r.client user.id with
        | error e =>
          simp only [hl, ha, isErr]
          repeat apply strBeginsWith_append_true
          decide
        | ok u =>
          simp only [hl, ha, isErr]
          apply strBeginsWith_false_of_strMismatch
          repeat apply strMismatch_append
          decide

theorem get_user_by_screen_name_failed_iff (consts : ModuleConsts) (home : String)
    (fs : FS) (cenv : ClientEnv)
    (lk : Client → String → Except String (Option User))
    (username : String) :
    strBeginsWith "Failed to" (get_user_by_screen_name consts home fs cenv lk username)
      = get_user_by_screen_name_raises consts home fs cenv lk username := by
  unfold get_user_by_screen_name get_user_by_screen_name_raises
  cases hg : get_twitter_client consts home fs cenv with
  | error e =>
    repeat apply strBeginsWith_append_true
    decide
  | ok r =>
    cases hl : lk r.client (lstripAt username) with
    | error e =>
      simp only [hl, isErr]
      repeat apply strBeginsWith_append_true
      decide
    | ok uo =>
      cases uo with
      | none =>
        simp only [hl, isErr]
        apply strBeginsWith_false_of_strMismatch
        repeat apply strMismatch_append
        decide
      | some user =>
        simp only [hl, isErr]
        apply strBeginsWith_false_of_strMismatch
        repeat apply strMismatch_append
        decide

theorem get_user_followers_failed_iff (consts : ModuleConsts) (home : String)
    (fs : FS) (cenv : ClientEnv)
    (lk : Client → String → Except String (Option User))
    (gf : Client → String → Nat → Except String (List User))
    (username : String) (n : Nat) :
    strBeginsWith "Failed to" (get_user_followers consts home fs cenv lk gf username n)
      = get_user_followers_raises consts home fs cenv lk gf username n := by
  unfold get_user_followers get_user_followers_raises
  cases hg : get_twitter_client consts home fs cenv with
  | error e =>
    repeat apply strBeginsWith_append_true
    decide
  | ok r =>
    cases hl : lk r.client (lstripAt username) with
    | error e =>
      simp only [hl]
      repeat apply strBeginsWith_append_true
      decide
    | ok uo =>
      cases uo with
      | none =>
        simp only [hl]
        apply strBeginsWith_false_of_strMismatch
        repeat apply strMismatch_append
        decide
      | some user =>
        cases ha : gf r.client user.id n with
        | error e =>
          simp only [hl, ha, isErr]
          repeat apply strBeginsWith_append_true
          decide
        | ok followers =>
          simp only [hl, ha, isErr]
          apply strBeginsWith_false_of_strMismatch
          repeat apply strMismatch_append
          decide

theorem get_user_following_failed_iff (consts : ModuleConsts) (home : String)
    (fs : FS) (cenv : ClientEnv)
    (lk : Client → String → Except String (Option User))
    (gf : Client → String → Nat → Except String (List User))
    (username : String) (n : Nat) :
    strBeginsWith "Failed to" (get_user_following consts home fs cenv lk gf username n)
      = get_user_following_raises consts home fs cenv lk gf username n := by
  unfold get_user_following get_user_following_raises
  cases hg : get_twitter_client consts home fs cenv with
  | error e =>
    repeat apply strBeginsWith_append_true
    decide
  | ok r =>
    cases hl : lk r.client (lstripAt username) with
    | error e =>
      simp only [hl]
      repeat apply strBeginsWith_append_true
      decide
    | ok uo =>
      cases uo with
      | none =>
        simp only [hl]
        apply strBeginsWith_false_of_strMismatch
        repeat apply strMismatch_append
        decide
      | some user =>
        cases ha : gf r.client user.id n with
        | error e =>
          simp only [hl, ha, isErr]
          repeat apply strBeginsWith_append_true
          decide
        | ok following =>
          simp only [hl, ha, isErr]
          apply strBeginsWith_false_of_strMismatch
          repeat apply strMismatch_append
          decide

/-!
### Username normalization facts used by several tools
-/

theorem lstripAt_no_at (s : String) (h : strBeginsWith "@" s = false) :
    lstripAt s = s := by
  cases s with
  | mk l =>
    show String.mk (lstripAtChars l) = String.mk l
    rw [lstripAtChars_no_at l h]

theorem get_user_tweets_at_invariant (consts : ModuleConsts) (home : String) (fs : FS)
    (cenv : ClientEnv)
    (lk : Client → String → Except String (Option User))
    (gut : Client → String → String → Nat → Except String (List Tweet))
    (s tt : String) (n : Nat) :
    get_user_tweets consts home fs cenv lk gut ("@" ++ s) tt n
      = get_user_tweets consts home fs cenv lk gut s tt n := by
  simp only [get_user_tweets, lstripAt_at_append]

theorem follow_user_at_invariant (consts : ModuleConsts) (home : String) (fs : FS)
    (cenv : ClientEnv)
    (lk : Client → String → Except String (Option User))
    (fl : Client → String → Except String Unit) (s : String) :
    follow_user consts home fs cenv lk fl ("@" ++ s)
      = follow_user consts home fs cenv lk fl s := by
  simp only [follow_user, lstripAt_at_append]

theorem unfollow_user_at_invariant (consts : ModuleConsts) (home : String) (fs : FS)
    (cenv : ClientEnv)
    (lk : Client → String → Except String (Option User))
    (fl : Client → String → Except String Unit) (s : String) :
    unfollow_user consts home fs cenv lk fl ("@" ++ s)
      = unfollow_user consts home fs cenv lk fl s := by
  simp only [unfollow_user, lstripAt_at_append]

theorem block_user_at_invariant (consts : ModuleConsts) (home : String) (fs : FS)
    (cenv : ClientEnv)
    (lk : Client → String → Except String (Option User))
    (bl : Client → String → Except String Unit) (s : String) :
    block_user consts home fs cenv lk bl ("@" ++ s)
      = block_user consts home fs cenv lk bl s := by
  simp only [block_user, lstripAt_at_append]

theorem unblock_user_at_invariant (consts : ModuleConsts) (home : String) (fs : FS)
    (cenv : ClientEnv)
    (lk : Client → String → Except String (Option User))
    (bl : Client → String → Except String Unit) (s : String) :
    unblock_user consts home fs cenv lk bl ("@" ++ s)
      = unblock_user consts home fs cenv lk bl s := by
  simp only [unblock_user, lstripAt_at_append]

theorem get_user_by_screen_name_at_invariant (consts : ModuleConsts) (home : String)
    (fs : FS) (cenv : ClientEnv)
    (lk : Client → String → Except String (Option User)) (s : String) :
    get_user_by_screen_name consts home fs cenv lk ("@" ++ s)
      = get_user_by_screen_name consts home fs cenv lk s := by
  simp only [get_user_by_screen_name, lstripAt_at_append]

theorem get_user_followers_at_invariant (consts : ModuleConsts) (home blob : String)
    (cenv : ClientEnv)
    (lk : Client → String → Except String (Option User))
    (gf : Client → String → Nat → Except String (List User))
    (s : String) (n : Nat) :
    get_user_followers consts home (fsWithCookies home blob) cenv lk gf ("@" ++ s) n
      = get_user_followers consts home (fsWithCookies home blob) cenv lk gf s n := by
  simp only [get_user_followers, gtc_fsWithCookies, lstripAt_at_append]

theorem get_user_following_at_invariant (consts : ModuleConsts) (home blob : String)
    (cenv : ClientEnv)
    (lk : Client → String → Except String (Option User))
    (gf : Client → String → Nat → Except String (List User))
    (s : String) (n : Nat) :
    get_user_following consts home (fsWithCookies home blob) cenv lk gf ("@" ++ s) n
      = get_user_following consts home (fsWithCookies home blob) cenv lk gf s n := by
  simp only [get_user_following, gtc_fsWithCookies, lstripAt_at_append]

/-!
### Concrete sample states for closed statements
-/

/-- A concrete module-constants value. -/
def sampleConsts : ModuleConsts :=
  { USERNAME := some "user", EMAIL := some "mail"
    PASSWORD := some "pw", USER_AGENT := none }

/-- A client environment whose login raises `"boom"`. -/
def failingLogin : ClientEnv := { loginResult := Except.error "boom", sessionBlob := "" }

/-- A client environment whose login succeeds, producing cookie blob `"BLOB"`. -/
def okLogin : ClientEnv := { loginResult := Except.ok (), sessionBlob := "BLOB" }

/-- The process environment at module import time in the credential-reading
scenario: the username variable holds `"old_user"`. -/
def envAtImport : String → Option String :=
  fun n => if n = "TWITTER_USERNAME" then some "old_user" else none

/-- The changed process environment at session-creation time: the username
variable now holds `"new_user"`. -/
def envAtSession : String → Option String :=
  fun n => if n = "TWITTER_USERNAME" then some "new_user" else none

theorem get_user_tweets_multi_at (consts : ModuleConsts) (home : String) (fs : FS)
    (cenv : ClientEnv)
    (lk : Client → String → Except String (Option User))
    (gut : Client → String → String → Nat → Except String (List Tweet))
    (k : Nat) (s tt : String) (n : Nat) (h : strBeginsWith "@" s = false) :
    get_user_tweets consts home fs cenv lk gut (atRun k ++ s) tt n
      = get_user_tweets consts home fs cenv lk gut s tt n := by
  simp only [get_user_tweets, lstripAt_atRun_append k s h, lstripAt_no_at s h]

theorem get_user_by_screen_name_multi_at (consts : ModuleConsts) (home : String)
    (fs : FS) (cenv : ClientEnv)
    (lk : Client → String → Except String (Option User))
    (k : Nat) (s : String) (h : strBeginsWith "@" s = false) :
    get_user_by_screen_name consts home fs cenv lk (atRun k ++ s)
      = get_user_by_screen_name consts home fs cenv lk s := by
  simp only [get_user_by_screen_name, lstripAt_atRun_append k s h, lstripAt_no_at s h]

/-!
### Claim theorems
-/

/-- C2: whenever the Session Artifact file exists at the fixed path,
`get_twitter_client` succeeds, returning a fresh client whose cookie state
is exactly the stored file content, and `client.login` is never invoked on
that path (no login attempt, no credential arguments). -/
theorem cookies_present_skips_login (consts : ModuleConsts) (home : String)
    (fs : FS) (cenv : ClientEnv) (blob : String)
    (h : fs.files (COOKIES_PATH home) = some blob) :
    get_twitter_client consts home fs cenv =
      Except.ok
        { client := { language := "en-US", user_agent := consts.USER_AGENT
                      cookies := some blob, loggedIn := false }
          fs := fs
          trace := { loginAttempted := false, loginArgs := none
                     mkdirCalled := false, saveCookiesCalled := false } } := by
  unfold get_twitter_client
  rw [h]
  rfl

/-- Witness for `cookies_present_skips_login` at a concrete state. -/
theorem cookies_present_skips_login_witness :
    (fsWithCookies "/home/u" "blob").files (COOKIES_PATH "/home/u") = some "blob" ∧
    get_twitter_client sampleConsts "/home/u" (fsWithCookies "/home/u" "blob") failingLogin =
      Except.ok
        { client := { language := "en-US", user_agent := sampleConsts.USER_AGENT
                      cookies := some "blob", loggedIn := false }
          fs := fsWithCookies "/home/u" "blob"
          trace := { loginAttempted := false, loginArgs := none
                     mkdirCalled := false, saveCookiesCalled := false } } :=
  ⟨by decide, cookies_present_skips_login sampleConsts "/home/u"
    (fsWithCookies "/home/u" "blob") failingLogin "blob" (by decide)⟩

/-- C3: when no Session Artifact file exists and the credential login
succeeds, `get_twitter_client` returns successfully and, in the filesystem
it leaves behind, the artifact file exists at the fixed path
`home/.mcp-twikit/cookies.json` (holding the new session blob) and the
parent directory `home/.mcp-twikit` has been created; the trace records the
`mkdir` and `save_cookies` calls. -/
theorem fresh_login_persists_cookies (consts : ModuleConsts) (home : String)
    (fs : FS) (cenv : ClientEnv)
    (habsent : fs.files (COOKIES_PATH home) = none)
    (hlogin : cenv.loginResult = Except.ok ()) :
    ∃ g : GTCResult,
      get_twitter_client consts home fs cenv = Except.ok g ∧
      g.fs.files (COOKIES_PATH home) = some cenv.sessionBlob ∧
      g.fs.dirs (COOKIES_DIR home) = true ∧
      g.trace.mkdirCalled = true ∧
      g.trace.saveCookiesCalled = true := by
  unfold get_twitter_client
  rw [habsent, hlogin]
  refine ⟨_, rfl, ?_, ?_, rfl, rfl⟩
  · simp [FS.writeFile]
  · simp [FS.writeFile, FS.mkdirParents]

/-- Witness for `fresh_login_persists_cookies` at a concrete state. -/
theorem fresh_login_persists_cookies_witness :
    emptyFS.files (COOKIES_PATH "/home/u") = none ∧
    okLogin.loginResult = Except.ok () ∧
    (∃ g : GTCResult,
      get_twitter_client sampleConsts "/home/u" emptyFS okLogin = Except.ok g ∧
      g.fs.files (COOKIES_PATH "/home/u") = some okLogin.sessionBlob ∧
      g.fs.dirs (COOKIES_DIR "/home/u") = true ∧
      g.trace.mkdirCalled = true ∧
      g.trace.saveCookiesCalled = true) :=
  ⟨rfl, rfl, fresh_login_persists_cookies sampleConsts "/home/u" emptyFS okLogin rfl rfl⟩

/-- C9: when the Session Artifact file exists, `get_twitter_client` performs
no write to the filesystem: the filesystem it returns is the very one it was
given (no file changed, no directory created), and the trace records that
neither `mkdir` nor `save_cookies` ran. -/
theorem cookies_present_no_fs_write (consts : ModuleConsts) (home : String)
    (fs : FS) (cenv : ClientEnv) (blob : String)
    (h : fs.files (COOKIES_PATH home) = some blob) :
    ∃ g : GTCResult,
      get_twitter_client consts home fs cenv = Except.ok g ∧
      g.fs = fs ∧
      g.trace.mkdirCalled = false ∧
      g.trace.saveCookiesCalled = false := by
  unfold get_twitter_client
  rw [h]
  exact ⟨_, rfl, rfl, rfl, rfl⟩

/-- Witness for `cookies_present_no_fs_write` at a concrete state. -/
theorem cookies_present_no_fs_write_witness :
    (fsWithCookies "/h" "c").files (COOKIES_PATH "/h") = some "c" ∧
    (∃ g : GTCResult,
      get_twitter_client sampleConsts "/h" (fsWithCookies "/h" "c") okLogin = Except.ok g ∧
      g.fs = fsWithCookies "/h" "c" ∧
      g.trace.mkdirCalled = false ∧
      g.trace.saveCookiesCalled = false) :=
  ⟨by decide, cookies_present_no_fs_write sampleConsts "/h" (fsWithCookies "/h" "c")
    okLogin "c" (by decide)⟩

/-- C1 (counterexample): with no Session Artifact present and a login that
raises `"boom"`, a tool invocation does NOT propagate the error to its
caller: `search_twitter` returns the plain text
`"Failed to search tweets: boom"`, i.e. the login failure IS converted into
a `"Failed to ..."` text response by the tool's `try/except` wrapper,
contradicting the claim. -/
theorem login_error_returned_as_text_counterexample :
    search_twitter sampleConsts "/home/u" emptyFS failingLogin
        (fun _ _ _ _ => Except.ok []) "query" "Top" 10
      = "Failed to search tweets: boom" ∧
    strBeginsWith "Failed to"
      (search_twitter sampleConsts "/home/u" emptyFS failingLogin
        (fun _ _ _ _ => Except.ok []) "query" "Top" 10) = true :=
  ⟨rfl, by decide⟩

/-- C1 (amended): if the Session Artifact file is absent and the interactive
login raises `e`, then `get_twitter_client` re-raises exactly `e`
(propagates `.error e`, not swallowing it at that layer), but every tool
invocation catches it: the tool's caller receives the normal text result
`"Failed to <action>: e"`, not a raised exception (shown here for
`search_twitter` and `get_trends`, the two cited tools). -/
theorem login_error_reraised_then_caught_by_tools (consts : ModuleConsts)
    (home : String) (fs : FS) (cenv : ClientEnv) (e : String)
    (habsent : fs.files (COOKIES_PATH home) = none)
    (hlogin : cenv.loginResult = Except.error e) :
    get_twitter_client consts home fs cenv = Except.error e ∧
    (∀ (st : Client → String → String → Nat → Except String (List Tweet))
        (q sb : String) (n : Nat),
      search_twitter consts home fs cenv st q sb n = "Failed to search tweets: " ++ e) ∧
    (∀ (gt : Client → String → Nat → Except String (List Trend))
        (cat : String) (n : Nat),
      get_trends consts home fs cenv gt cat n = "Failed to get trends: " ++ e) := by
  have hgtc : get_twitter_client consts home fs cenv = Except.error e := by
    unfold get_twitter_client
    rw [habsent, hlogin]
    rfl
  refine ⟨hgtc, ?_, ?_⟩
  · intro st q sb n
    unfold search_twitter
    rw [hgtc]
  · intro gt cat n
    unfold get_trends
    rw [hgtc]

/-- Witness for `login_error_reraised_then_caught_by_tools` at a concrete
state. -/
theorem login_error_reraised_then_caught_witness :
    emptyFS.files (COOKIES_PATH "/home/u") = none ∧
    failingLogin.loginResult = Except.error "boom" ∧
    (get_twitter_client sampleConsts "/home/u" emptyFS failingLogin
        = Except.error "boom" ∧
      (∀ (st : Client → String → String → Nat → Except String (List Tweet))
          (q sb : String) (n : Nat),
        search_twitter sampleConsts "/home/u" emptyFS failingLogin st q sb n
          = "Failed to search tweets: " ++ "boom") ∧
      (∀ (gt : Client → String → Nat → Except String (List Trend))
          (cat : String) (n : Nat),
        get_trends sampleConsts "/home/u" emptyFS failingLogin gt cat n
          = "Failed to get trends: " ++ "boom")) :=
  ⟨rfl, rfl,
    login_error_reraised_then_caught_by_tools sampleConsts "/home/u" emptyFS
      failingLogin "boom" rfl rfl⟩

/-- C8 (counterexample): the credential values are bound by `os.getenv` at
module import time, not at session-creation time.  With the environment
holding `"old_user"` at import and `"new_user"` at session creation, the
login performed during session creation still uses `"old_user"`: the change
made before the session creation is NOT reflected in that login. -/
theorem credentials_read_at_import_counterexample :
    (get_twitter_client (moduleLoad envAtImport) "/home/u" emptyFS okLogin).map
        (fun g => g.trace.loginArgs)
      = Except.ok (some (some "old_user", none, none)) ∧
    envAtSession "TWITTER_USERNAME" = some "new_user" ∧
    (some "old_user" : Option String) ≠ some "new_user" :=
  ⟨rfl, by decide, by decide⟩

/-- C8 (amended): the three credential values and the user-agent override
are read from the process environment once, at module import time
(`moduleLoad`); every session creation then uses exactly those captured
values — its login arguments, when a login happens at all, are the results
of the `getenv` captured at module load, and the client's user agent is
the captured `USER_AGENT`.  Later changes to the environment are not
consulted. -/
theorem login_uses_import_time_credentials (getenv : String → Option String)
    (home : String) (fs : FS) (cenv : ClientEnv) (g : GTCResult)
    (h : get_twitter_client (moduleLoad getenv) home fs cenv = Except.ok g) :
    g.client.user_agent = getenv "USER_AGENT" ∧
    (g.trace.loginArgs = none ∨
      g.trace.loginArgs = some (getenv "TWITTER_USERNAME", getenv "TWITTER_EMAIL",
        getenv "TWITTER_PASSWORD")) := by
  unfold get_twitter_client at h
  split at h
  · obtain rfl := (Except.ok.inj h).symm
    exact ⟨rfl, Or.inl rfl⟩
  · split at h
    · exact Except.noConfusion h
    · obtain rfl := (Except.ok.inj h).symm
      exact ⟨rfl, Or.inr rfl⟩

/-- Witness for `login_uses_import_time_credentials` at a concrete state. -/
theorem login_uses_import_time_credentials_witness :
    ∃ g : GTCResult,
      get_twitter_client (moduleLoad envAtImport) "/home/u" emptyFS okLogin
        = Except.ok g ∧
      (g.client.user_agent = envAtImport "USER_AGENT" ∧
        (g.trace.loginArgs = none ∨
          g.trace.loginArgs = some (envAtImport "TWITTER_USERNAME",
            envAtImport "TWITTER_EMAIL", envAtImport "TWITTER_PASSWORD"))) :=
  ⟨_, rfl,
    login_uses_import_time_credentials envAtImport "/home/u" emptyFS okLogin _ rfl⟩

/-- C5: `convert_tweets_to_markdown` formats each tweet as
`**@screen_name** - created_at` on one line followed by the tweet text,
joins the items with a blank line, and on the two-tweet example
`[(a, T1, hi), (b, T2, yo)]` yields exactly
`"**@a** - T1\nhi\n\n**@b** - T2\nyo"`. -/
theorem convert_tweets_to_markdown_spec :
    (∀ t : Tweet, convert_tweets_to_markdown [t]
        = "**@" ++ t.user.screen_name ++ "** - " ++ t.created_at ++ "\n" ++ t.text) ∧
    (∀ (t t2 : Tweet) (ts : List Tweet),
        convert_tweets_to_markdown (t :: t2 :: ts)
          = convert_tweets_to_markdown [t] ++ "\n\n"
              ++ convert_tweets_to_markdown (t2 :: ts)) ∧
    convert_tweets_to_markdown
        [{ id := "", user := { screen_name := "a" }, created_at := "T1", text := "hi" },
         { id := "", user := { screen_name := "b" }, created_at := "T2", text := "yo" }]
      = "**@a** - T1\nhi\n\n**@b** - T2\nyo" :=
  ⟨fun _ => rfl, fun _ _ _ => rfl, rfl⟩

/-- C6 (counterexample): on an unresolvable username, the
`get_user_by_screen_name` tool returns
`"Could not find user with screen name bob"`, which is not the text
`"Could not find user bob"` that the claim states. -/
theorem user_not_found_message_counterexample :
    get_user_by_screen_name sampleConsts "/home/u" (fsWithCookies "/home/u" "blob")
        okLogin (fun _ _ => Except.ok none) "bob"
      = "Could not find user with screen name bob" ∧
    "Could not find user with screen name bob" ≠ "Could not find user bob" :=
  ⟨rfl, by decide⟩

/-- C6 (amended): when the session loads from stored cookies and the user
lookup returns a falsy result, the `get_user_by_screen_name` tool returns
exactly `"Could not find user with screen name <name>"` (with `<name>` the
`'@'`-stripped username); the tool's body performs no further external
client call (its only oracle is the lookup). -/
theorem user_not_found_message (consts : ModuleConsts) (home blob : String)
    (cenv : ClientEnv) (lk : Client → String → Except String (Option User))
    (username : String)
    (h : lk (loadedClient consts blob) (lstripAt username) = Except.ok none) :
    get_user_by_screen_name consts home (fsWithCookies home blob) cenv lk username
      = "Could not find user with screen name " ++ lstripAt username := by
  unfold get_user_by_screen_name
  rw [gtc_fsWithCookies]
  simp only [h]

/-- Witness for `user_not_found_message` at a concrete state. -/
theorem user_not_found_message_witness :
    (fun _ _ => Except.ok none : Client → String → Except String (Option User))
        (loadedClient sampleConsts "blob") (lstripAt "bob") = Except.ok none ∧
    get_user_by_screen_name sampleConsts "/home/u" (fsWithCookies "/home/u" "blob")
        okLogin (fun _ _ => Except.ok none) "bob"
      = "Could not find user with screen name " ++ lstripAt "bob" :=
  ⟨rfl, user_not_found_message sampleConsts "/home/u" "blob" okLogin
    (fun _ _ => Except.ok none) "bob" rfl⟩

/-- C7: a leading `'@'` is stripped before resolution, so `"@" ++ s` and
`s` resolve identically: `lstripAt` agrees on both, and each username-taking
tool produces identical results on `"@" ++ s` and on `s` (for
`get_user_followers` and `get_user_following`, whose error text
interpolates the raw username, this is stated for sessions acquired from a
stored artifact, where the lookup path is the whole behaviour). -/
theorem at_sign_stripped_before_lookup :
    (∀ s : String, lstripAt ("@" ++ s) = lstripAt s) ∧
    (∀ consts home fs cenv lk gut s tt n,
      get_user_tweets consts home fs cenv lk gut ("@" ++ s) tt n
        = get_user_tweets consts home fs cenv lk gut s tt n) ∧
    (∀ consts home fs cenv lk fl s,
      follow_user consts home fs cenv lk fl ("@" ++ s)
        = follow_user consts home fs cenv lk fl s) ∧
    (∀ consts home fs cenv lk fl s,
      unfollow_user consts home fs cenv lk fl ("@" ++ s)
        = unfollow_user consts home fs cenv lk fl s) ∧
    (∀ consts home fs cenv lk bl s,
      block_user consts home fs cenv lk bl ("@" ++ s)
        = block_user consts home fs cenv lk bl s) ∧
    (∀ consts home fs cenv lk bl s,
      unblock_user consts home fs cenv lk bl ("@" ++ s)
        = unblock_user consts home fs cenv lk bl s) ∧
    (∀ consts home fs cenv lk s,
      get_user_by_screen_name consts home fs cenv lk ("@" ++ s)
        = get_user_by_screen_name consts home fs cenv lk s) ∧
    (∀ consts home blob cenv lk gf s n,
      get_user_followers consts home (fsWithCookies home blob) cenv lk gf ("@" ++ s) n
        = get_user_followers consts home (fsWithCookies home blob) cenv lk gf s n) ∧
    (∀ consts home blob cenv lk gf s n,
      get_user_following consts home (fsWithCookies home blob) cenv lk gf ("@" ++ s) n
        = get_user_following consts home (fsWithCookies home blob) cenv lk gf s n) :=
  ⟨lstripAt_at_append, get_user_tweets_at_invariant, follow_user_at_invariant,
    unfollow_user_at_invariant, block_user_at_invariant, unblock_user_at_invariant,
    get_user_by_screen_name_at_invariant, get_user_followers_at_invariant,
    get_user_following_at_invariant⟩

/-- C10: username normalization removes every leading `'@'`, not just one:
for any `s` not beginning with `'@'` and any number `k` of leading `'@'`
characters, `lstripAt` maps `'@'*k ++ s` to `s`, and the cited
username-taking tools behave identically on `'@'*k ++ s` and on `s`. -/
theorem all_leading_at_signs_stripped :
    (∀ (k : Nat) (s : String), strBeginsWith "@" s = false →
      lstripAt (atRun k ++ s) = s) ∧
    (∀ consts home fs cenv lk gut k s tt n, strBeginsWith "@" s = false →
      get_user_tweets consts home fs cenv lk gut (atRun k ++ s) tt n
        = get_user_tweets consts home fs cenv lk gut s tt n) ∧
    (∀ consts home fs cenv lk k s, strBeginsWith "@" s = false →
      get_user_by_screen_name consts home fs cenv lk (atRun k ++ s)
        = get_user_by_screen_name consts home fs cenv lk s) :=
  ⟨lstripAt_atRun_append,
    fun consts home fs cenv lk gut k s tt n h =>
      get_user_tweets_multi_at consts home fs cenv lk gut k s tt n h,
    fun consts home fs cenv lk k s h =>
      get_user_by_screen_name_multi_at consts home fs cenv lk k s h⟩

/-- Witness for `all_leading_at_signs_stripped`: the input `"@@alice"`
(two leading `'@'`) resolves like `"alice"`. -/
theorem all_leading_at_signs_stripped_witness :
    strBeginsWith "@" "alice" = false ∧
    lstripAt (atRun 2 ++ "alice") = "alice" ∧
    atRun 2 ++ "alice" = "@@alice" :=
  ⟨by decide, all_leading_at_signs_stripped.1 2 "alice" (by decide), by decide⟩

/-- C4: for every active tool, the returned text begins with `"Failed to"`
exactly when an exception was thrown somewhere in the tool body (by session
acquisition, by the user lookup, or by the external action call) — so a
successful run never yields a `"Failed to"`-leading text, and any thrown
error always does; moreover the error text is the fixed per-tool
`"Failed to <action>: "` followed by the error detail, shown for the two
cited tools `search_twitter` and `get_trends`. -/
theorem tools_failed_text_iff_exception :
    (∀ consts home fs cenv st q sb n,
      strBeginsWith "Failed to" (search_twitter consts home fs cenv st q sb n)
        = search_twitter_raises consts home fs cenv st q sb n) ∧
    (∀ consts home fs cenv lk gut username tt n,
      strBeginsWith "Failed to"
          (get_user_tweets consts home fs cenv lk gut username tt n)
        = get_user_tweets_raises consts home fs cenv lk gut username tt n) ∧
    (∀ consts home fs cenv gt n,
      strBeginsWith "Failed to" (get_timeline consts home fs cenv gt n)
        = get_timeline_raises consts home fs cenv gt n) ∧
    (∀ consts home fs cenv gt n,
      strBeginsWith "Failed to" (get_latest_timeline consts home fs cenv gt n)
        = get_latest_timeline_raises consts home fs cenv gt n) ∧
    (∀ consts home fs cenv ct text mids pu,
      strBeginsWith "Failed to" (create_tweet consts home fs cenv ct text mids pu)
        = create_tweet_raises consts home fs cenv ct text mids pu) ∧
    (∀ consts home fs cenv ct tid text mids,
      strBeginsWith "Failed to" (reply_to_tweet consts home fs cenv ct tid text mids)
        = reply_to_tweet_raises consts home fs cenv ct tid text mids) ∧
    (∀ consts home fs cenv fav tid,
      strBeginsWith "Failed to" (like_tweet consts home fs cenv fav tid)
        = like_tweet_raises consts home fs cenv fav tid) ∧
    (∀ consts home fs cenv rt tid,
      strBeginsWith "Failed to" (retweet consts home fs cenv rt tid)
        = retweet_raises consts home fs cenv rt tid) ∧
    (∀ consts home fs cenv lk fl username,
      strBeginsWith "Failed to" (follow_user consts home fs cenv lk fl username)
        = follow_user_raises consts home fs cenv lk fl username) ∧
    (∀ consts home fs cenv lk fl username,
      strBeginsWith "Failed to" (unfollow_user consts home fs cenv lk fl username)
        = unfollow_user_raises consts home fs cenv lk fl username) ∧
    (∀ consts home fs cenv lk bl username,
      strBeginsWith "Failed to" (block_user consts home fs cenv lk bl username)
        = block_user_raises consts home fs cenv lk bl username) ∧
    (∀ consts home fs cenv lk bl username,
      strBeginsWith "Failed to" (unblock_user consts home fs cenv lk bl username)
        = unblock_user_raises consts home fs cenv lk bl username) ∧
    (∀ consts home fs cenv lk username,
      strBeginsWith "Failed to"
          (get_user_by_screen_name consts home fs cenv lk username)
        = get_user_by_screen_name_raises consts home fs cenv lk username) ∧
    (∀ consts home fs cenv lk gf username n,
      strBeginsWith "Failed to"
          (get_user_followers consts home fs cenv lk gf username n)
        = get_user_followers_raises consts home fs cenv lk gf username n) ∧
    (∀ consts home fs cenv lk gf username n,
      strBeginsWith "Failed to"
          (get_user_following consts home fs cenv lk gf username n)
        = get_user_following_raises consts home fs cenv lk gf username n) ∧
    (∀ consts home fs cenv sd uid text mid,
      strBeginsWith "Failed to" (send_dm consts home fs cenv sd uid text mid)
        = send_dm_raises consts home fs cenv sd uid text mid) ∧
    (∀ consts home fs cenv gt cat n,
      strBeginsWith "Failed to" (get_trends consts home fs cenv gt cat n)
        = get_trends_raises consts home fs cenv gt cat n) ∧
    (∀ consts home blob cenv e q sb n,
      search_twitter consts home (fsWithCookies home blob) cenv
          (fun _ _ _ _ => Except.error e) q sb n
        = "Failed to search tweets: " ++ e) ∧
    (∀ consts home blob cenv e cat n,
      get_trends consts home (fsWithCookies home blob) cenv
          (fun _ _ _ => Except.error e) cat n
        = "Failed to get trends: " ++ e) :=
  ⟨search_twitter_failed_iff, get_user_tweets_failed_iff, get_timeline_failed_iff,
    get_latest_timeline_failed_iff, create_tweet_failed_iff, reply_to_tweet_failed_iff,
    like_tweet_failed_iff, retweet_failed_iff, follow_user_failed_iff,
    unfollow_user_failed_iff, block_user_failed_iff, unblock_user_failed_iff,
    get_user_by_screen_name_failed_iff, get_user_followers_failed_iff,
    get_user_following_failed_iff, send_dm_failed_iff, get_trends_failed_iff,
    fun consts home blob cenv e q sb n => by
      unfold search_twitter
      rw [gtc_fsWithCookies],
    fun consts home blob cenv e cat n => by
      unfold get_trends
      rw [gtc_fsWithCookies]⟩

end McpTwikit
